import Mathlib

/-
Verification development for the L2_API_Generator repository.

Shallow embedding conventions:
* Python ints are Int; Python floor division // is Int.fdiv.
* JSON values are the Json inductive below; the standard-library json.loads
  is not repository code, so it is passed to the embedded functions as an
  explicit `parse` argument and constrained by hypotheses.
* Python code that can raise returns Except; a raised exception is an error
  value.  Exception message strings produced at runtime by the Python
  interpreter (AttributeError texts, pydantic ValidationError texts) are
  abbreviated by pyErrStr; no claim depends on their exact wording.
* Impure inputs of the source functions appear as explicit arguments: the
  configured-or-not OpenAI client (clientConfigured : Bool), the model reply
  string, the OPENAI_API_KEY environment variable (Option String), and the
  datetime.now().isoformat() clock reading (now : String).
-/

-- ===========================================================================
-- JSON values and Python exception values
-- ===========================================================================

/-- JSON values produced by json.loads.  Numbers are rationals (JSON numbers
are decimal literals; floating-point rounding plays no role in any claim).
Objects are association lists; json.loads keeps the last duplicate key, so
its output has distinct keys and List.lookup is the dict lookup. -/
inductive Json where
  | null
  | bool (b : Bool)
  | num (q : Rat)
  | str (s : String)
  | arr (elems : List Json)
  | obj (fields : List (String × Json))

/-- Python exceptions that the embedded repository code can raise (other than
fastapi.HTTPException, which is modelled separately as HTTPError). -/
inductive PyError where
  | attributeError
  | validationError
  | zeroDivisionError
deriving DecidableEq

/-- str(e) for a PyError.  The real interpreter texts are runtime-formatted
("\x27list\x27 object has no attribute \x27get\x27", pydantic reports, ...);
they are abbreviated here and no claim depends on their wording. -/
def pyErrStr : PyError → String
  | .attributeError => "AttributeError"
  | .validationError => "ValidationError"
  | .zeroDivisionError => "ZeroDivisionError"

/-- fastapi.HTTPException(status_code=..., detail=...). -/
structure HTTPError where
  status_code : Nat
  detail : String
deriving DecidableEq

/-- str() of a fastapi/starlette HTTPException: "status_code: detail". -/
def httpExcStr (e : HTTPError) : String :=
  toString e.status_code ++ ": " ++ e.detail

/-- Boolean success test for Except values. -/
def exceptIsOk : Except ε α → Bool
  | .ok _ => true
  | .error _ => false

-- ===========================================================================
-- Python string helpers used by the source (str.strip, str.split, `in`)
-- ===========================================================================

/-- Python str.strip() whitespace set (ASCII part; the repository only strips
model replies, where the ASCII set is what matters). -/
def isPySpace (c : Char) : Bool :=
  c == ' ' || c == '\t' || c == '\n' || c == '\r' || c == '\x0b' || c == '\x0c'

/-- Python str.strip(): drop leading and trailing whitespace. -/
def pyStrip (s : String) : String :=
  (((s.data.dropWhile isPySpace).reverse.dropWhile isPySpace).reverse).asString

/-- Python str.split("\x60\x60\x60json"): split on successive non-overlapping
occurrences of the seven-character separator, scanning left to right. -/
def splitTicksJsonAux : List Char → List Char → List (List Char)
  | '\x60' :: '\x60' :: '\x60' :: 'j' :: 's' :: 'o' :: 'n' :: rest, acc =>
      acc.reverse :: splitTicksJsonAux rest []
  | c :: rest, acc => splitTicksJsonAux rest (c :: acc)
  | [], acc => [acc.reverse]

/-- Python str.split("\x60\x60\x60"): split on the three-backtick separator. -/
def splitTicksAux : List Char → List Char → List (List Char)
  | '\x60' :: '\x60' :: '\x60' :: rest, acc => acc.reverse :: splitTicksAux rest []
  | c :: rest, acc => splitTicksAux rest (c :: acc)
  | [], acc => [acc.reverse]

def splitTicksJson (s : String) : List String :=
  (splitTicksJsonAux s.data []).map List.asString

def splitTicks (s : String) : List String :=
  (splitTicksAux s.data []).map List.asString

/-- The code-fence stripping of ai_code_gen.py (lines 224-227):
if "\x60\x60\x60json" in content: content.split("\x60\x60\x60json")[1]
.split("\x60\x60\x60")[0].strip(); elif "\x60\x60\x60" in content:
content.split("\x60\x60\x60")[1].split("\x60\x60\x60")[0].strip().
`sep in content` holds exactly when the split has at least two parts. -/
def stripFences (content : String) : String :=
  let jparts := splitTicksJson content
  if 2 ≤ jparts.length then
    pyStrip ((splitTicks (jparts.getD 1 "")).getD 0 "")
  else
    let tparts := splitTicks content
    if 2 ≤ tparts.length then
      pyStrip ((splitTicks (tparts.getD 1 "")).getD 0 "")
    else content

-- ===========================================================================
-- dict.get and the AIGeneratedSpec pydantic model (ai_code_gen.py 47-51)
-- ===========================================================================

/-- Python result.get(key, default): dict lookup with default on a dict,
AttributeError on any non-dict value (list, str, int, ...). -/
def Json.get (j : Json) (key : String) (dflt : Json) : Except PyError Json :=
  match j with
  | .obj fields => .ok ((fields.lookup key).getD dflt)
  | _ => .error .attributeError

/-- pydantic List[str] validation: every element must be a JSON string. -/
def strListOfJson : List Json → Option (List String)
  | [] => some []
  | .str s :: rest => (strListOfJson rest).map (fun l => s :: l)
  | _ => none

/-- class AIGeneratedSpec(BaseModel) of ai_code_gen.py: api_spec : dict,
reasoning : str, suggestions : List[str], confidence_score : float. -/
structure AIGeneratedSpec where
  api_spec : List (String × Json)
  reasoning : String
  suggestions : List String
  confidence_score : Rat

/-- The AIGeneratedSpec(...) construction of ai_code_gen.py lines 231-236:
the three result.get calls (AttributeError on a non-dict result), then
pydantic validation of the declared field types.  The validation accepts
exactly values of the annotated types; pydantic lax coercions at the edges
(numeric strings for float) are not exercised by any claim. -/
def buildAIGeneratedSpec (result : Json) : Except PyError AIGeneratedSpec :=
  match result.get "reasoning" (.str "AI 생성 결과") with
  | .error e => .error e
  | .ok reasoningJ =>
    match result.get "suggestions" (.arr []) with
    | .error e => .error e
    | .ok suggestionsJ =>
      match result.get "confidence_score" (.num 0.8) with
      | .error e => .error e
      | .ok confidenceJ =>
        match result, reasoningJ, suggestionsJ, confidenceJ with
        | .obj fields, .str r, .arr sl, .num c =>
          (match strListOfJson sl with
           | some sugg => .ok ⟨fields, r, sugg, c⟩
           | none => .error .validationError)
        | _, _, _, _ => .error .validationError

-- ===========================================================================
-- AICodeGenerator.generate_api_spec_from_description (ai_code_gen.py 192-241)
-- ===========================================================================

/-- Result of one call of the wrapper: whether a chat-completion request was
issued, and the returned value or raised HTTPException. -/
structure GenOutcome where
  callAttempted : Bool
  result : Except HTTPError AIGeneratedSpec

/-- AICodeGenerator.generate_api_spec_from_description.  clientConfigured
models the `if not self.client` check (the client is None-like exactly when
no API key is configured); parse models json.loads; reply models
response.choices[0].message.content. -/
def generate_api_spec_from_description (clientConfigured : Bool)
    (parse : String → Except String Json) (reply : String) : GenOutcome :=
  if clientConfigured = false then
    ⟨false, .error ⟨503, "OpenAI API가 설정되지 않았습니다"⟩⟩
  else
    let content := stripFences (pyStrip reply)
    match parse content with
    | .error e => ⟨true, .error ⟨500, "AI 응답 파싱 오류: " ++ e⟩⟩
    | .ok result =>
      match buildAIGeneratedSpec result with
      | .ok spec => ⟨true, .ok spec⟩
      | .error e => ⟨true, .error ⟨500, "AI 생성 오류: " ++ pyErrStr e⟩⟩

-- ===========================================================================
-- AICodeGenerator.review_and_optimize_code (ai_code_gen.py 289-321)
-- ===========================================================================

/-- The hardcoded fallback dict of review_and_optimize_code:
quality_score 70, issues [], optimized_code = the input code. -/
def reviewFallback (code : String) : Json :=
  .obj [("quality_score", .num 70), ("issues", .arr []), ("optimized_code", .str code)]

/-- Result of one call of review_and_optimize_code. -/
structure ReviewOutcome where
  callAttempted : Bool
  result : Json

/-- AICodeGenerator.review_and_optimize_code.  call models the awaited
chat-completion request: .ok reply is the returned message content, .error
is any exception the request raises; every exception inside the try block
degrades to the fallback dict. -/
def review_and_optimize_code (clientConfigured : Bool)
    (call : Except String String) (parse : String → Except String Json)
    (code : String) : ReviewOutcome :=
  if clientConfigured = false then
    ⟨false, reviewFallback code⟩
  else
    match call with
    | .error _ => ⟨true, reviewFallback code⟩
    | .ok reply =>
      match parse (stripFences (pyStrip reply)) with
      | .error _ => ⟨true, reviewFallback code⟩
      | .ok j => ⟨true, j⟩

-- ===========================================================================
-- main3.py endpoint generate_api_from_description (lines 40-64)
-- ===========================================================================

/-- Python truthiness of os.getenv(...): None and the empty string are
falsy, any other string is truthy. -/
def pyTruthyStr : Option String → Bool
  | none => false
  | some s => !s.isEmpty

/-- The endpoint response dict of main3.py lines 53-59. -/
structure SuccessPayload where
  success : Bool
  data : List (String × Json)
  reasoning : String
  suggestions : List String
  confidence_score : Rat

structure EndpointOutcome where
  callAttempted : Bool
  result : Except HTTPError SuccessPayload

/-- The POST /api/ai/generate-from-description handler of main3.py: the
OPENAI_API_KEY environment check (503 before any call), then the wrapper
call; `except Exception` also catches the wrapper's HTTPException and
re-raises 500 with str(e) and the formatted traceback tb appended. -/
def generate_api_from_description (envKey : Option String)
    (clientConfigured : Bool) (parse : String → Except String Json)
    (reply tb : String) : EndpointOutcome :=
  if pyTruthyStr envKey = false then
    ⟨false, .error ⟨503,
      "OpenAI API 키가 설정되지 않았습니다. .env 파일에 OPENAI_API_KEY를 설정해주세요."⟩⟩
  else
    let o := generate_api_spec_from_description clientConfigured parse reply
    match o.result with
    | .ok r =>
        ⟨o.callAttempted,
         .ok ⟨true, r.api_spec, r.reasoning, r.suggestions, r.confidence_score⟩⟩
    | .error e =>
        ⟨o.callAttempted,
         .error ⟨500, "AI 생성 실패: " ++ httpExcStr e ++ "\n" ++ tb⟩⟩

-- ===========================================================================
-- main1_excercise.py data model (lines 20-65)
-- ===========================================================================

inductive HTTPMethod where
  | GET | POST | PUT | DELETE | PATCH
deriving DecidableEq

inductive Framework where
  | FASTAPI | FLASK | EXPRESS
deriving DecidableEq

inductive Database where
  | POSTGRESQL | MYSQL | MONGODB | SQLITE
deriving DecidableEq

inductive AuthMethod where
  | NONE | JWT | OAUTH2 | API_KEY
deriving DecidableEq

/-- The str-enum member values. -/
def HTTPMethod.ofValue : String → Option HTTPMethod
  | "GET" => some .GET
  | "POST" => some .POST
  | "PUT" => some .PUT
  | "DELETE" => some .DELETE
  | "PATCH" => some .PATCH
  | _ => none

def Framework.ofValue : String → Option Framework
  | "fastapi" => some .FASTAPI
  | "flask" => some .FLASK
  | "express" => some .EXPRESS
  | _ => none

def Database.ofValue : String → Option Database
  | "postgresql" => some .POSTGRESQL
  | "mysql" => some .MYSQL
  | "mongodb" => some .MONGODB
  | "sqlite" => some .SQLITE
  | _ => none

def AuthMethod.ofValue : String → Option AuthMethod
  | "none" => some .NONE
  | "jwt" => some .JWT
  | "oauth2" => some .OAUTH2
  | "api-key" => some .API_KEY
  | _ => none

/-- class EndpointModel(BaseModel): path, method, description required;
parameters, request_body, responses Optional with default None; tags with
default []. -/
structure EndpointModel where
  path : String
  method : HTTPMethod
  description : String
  parameters : Option String
  request_body : Option String
  responses : Option String
  tags : List String
deriving DecidableEq

/-- class APISpecModel(BaseModel): name, description, endpoints required;
version default "1.0.0"; framework default FASTAPI; database default
POSTGRESQL; authentication default JWT. -/
structure APISpecModel where
  name : String
  description : String
  version : String
  framework : Framework
  database : Database
  authentication : AuthMethod
  endpoints : List EndpointModel
deriving DecidableEq

-- ===========================================================================
-- pydantic construction of the two models (claim C7)
-- ===========================================================================

/-- Raw keyword arguments of an EndpointModel(...) construction; none means
the field is absent from the input. -/
structure EndpointInput where
  path : Option String
  method : Option String
  description : Option String
  parameters : Option String := none
  request_body : Option String := none
  responses : Option String := none
  tags : Option (List String) := none

/-- Raw keyword arguments of an APISpecModel(...) construction. -/
structure APISpecInput where
  name : Option String
  description : Option String
  version : Option String := none
  framework : Option String := none
  database : Option String := none
  authentication : Option String := none
  endpoints : Option (List EndpointInput) := none

/-- pydantic validation of EndpointModel: the declared Fields carry no
constraints beyond required-ness (Field(..., description=...)) and the enum
type of method, so validation only checks presence and enum membership and
fills in the declared defaults. -/
def validateEndpoint (i : EndpointInput) : Except PyError EndpointModel :=
  match i.path, i.method, i.description with
  | some path, some m, some desc =>
    match HTTPMethod.ofValue m with
    | some meth =>
        .ok ⟨path, meth, desc, i.parameters, i.request_body, i.responses, i.tags.getD []⟩
    | none => .error .validationError
  | _, _, _ => .error .validationError

def validateEndpoints : List EndpointInput → Except PyError (List EndpointModel)
  | [] => .ok []
  | i :: rest => do
    let e ← validateEndpoint i
    let es ← validateEndpoints rest
    .ok (e :: es)

/-- pydantic validation of APISpecModel: name, description, endpoints must be
present; enum-typed fields must be valid members when given and take their
declared defaults when absent; no length or non-emptiness constraint is
declared on any field. -/
def validateAPISpec (i : APISpecInput) : Except PyError APISpecModel :=
  match i.name, i.description, i.endpoints with
  | some name, some desc, some eps =>
    let fw := match i.framework with
      | none => some Framework.FASTAPI
      | some s => Framework.ofValue s
    let db := match i.database with
      | none => some Database.POSTGRESQL
      | some s => Database.ofValue s
    let auth := match i.authentication with
      | none => some AuthMethod.JWT
      | some s => AuthMethod.ofValue s
    match fw, db, auth with
    | some f, some d, some a =>
      match validateEndpoints eps with
      | .ok es => .ok ⟨name, desc, i.version.getD "1.0.0", f, d, a, es⟩
      | .error e => .error e
    | _, _, _ => .error .validationError
  | _, _, _ => .error .validationError

/-- Python attribute assignment spec.name = v after construction: the models
declare no frozen config, so pydantic default mutability applies and the
assignment succeeds, unvalidated. -/
def APISpecModel.assign_name (m : APISpecModel) (v : String) : APISpecModel :=
  { m with name := v }

-- ===========================================================================
-- FastAPICodeGenerator._generate_requirements (main1_excercise.py 156-179)
-- ===========================================================================

/-- The base_requirements list as built by _generate_requirements. -/
def requirementsList (spec : APISpecModel) : List String :=
  let base := ["fastapi==0.104.1", "uvicorn[standard]==0.24.0", "pydantic==2.5.0"]
  let base :=
    if spec.database = Database.MONGODB then base ++ ["motor==3.3.2"]
    else base ++ ["sqlalchemy==2.0.23", "alembic==1.13.0"]
  let base :=
    if spec.database = Database.POSTGRESQL then base ++ ["psycopg2-binary==2.9.9"]
    else if spec.database = Database.MYSQL then base ++ ["pymysql==1.1.0"]
    else base
  if spec.authentication ≠ AuthMethod.NONE then
    base ++ ["python-jose[cryptography]==3.3.0", "passlib[bcrypt]==1.7.4"]
  else base

/-- The returned string: the source joins with the literal two-character
sequence backslash-n ("\\n".join in the Python source text). -/
def generate_requirements (spec : APISpecModel) : String :=
  String.intercalate "\\n" (requirementsList spec)

-- ===========================================================================
-- _extract_path_params (main1_excercise.py 209-213; the identical method of
-- AIEnhancedCodeGenerator at ai_code_gen.py 954-958)
-- ===========================================================================

/-- One attempted match of the regex r"\\\x7b([^\x7d]+)\\\x7d" at a position
whose backslash has just been consumed.  The pattern is: literal backslash,
literal opening brace, group of one or more non-closing-brace characters,
literal backslash, literal closing brace.  After the opening brace the
greedy group takes the maximal run of non-closing-brace characters and gives
exactly one character back, so a match requires that run to end in a
backslash and have length at least two.  Returns the captured group and the
remainder after the match. -/
def tryMatchBody : List Char → Option (List Char × List Char)
  | '\x7b' :: cs =>
    match cs.dropWhile (fun c => c ≠ '\x7d') with
    | '\x7d' :: rest2 =>
      let run := cs.takeWhile (fun c => c ≠ '\x7d')
      if 2 ≤ run.length ∧ run.getLast? = some '\\' then some (run.dropLast, rest2)
      else none
    | _ => none
  | _ => none

theorem dropWhile_cons_length {p : Char → Bool} {cs r : List Char} {c : Char}
    (h : cs.dropWhile p = c :: r) : r.length < cs.length := by
  have hsum := congrArg List.length (List.takeWhile_append_dropWhile p cs)
  rw [h] at hsum
  simp only [List.length_append, List.length_cons] at hsum
  omega

theorem tryMatchBody_length : ∀ {cs p rest2 : List Char},
    tryMatchBody cs = some (p, rest2) → rest2.length < cs.length := by
  intro cs p rest2 h
  unfold tryMatchBody at h
  split at h
  all_goals try cases h
  next tail =>
    split at h
    all_goals try cases h
    next r2 hdrop =>
      dsimp only at h
      split at h
      all_goals try cases h
      next hcond =>
        have hlt := dropWhile_cons_length hdrop
        simp only [List.length_cons]
        omega

/-- re.findall of the pattern, scanning left to right and resuming after
each match; on failure to match at a position the scan advances one
character.  A match can only begin at a backslash. -/
def findParams : List Char → List String
  | [] => []
  | c :: rest =>
    if c = '\\' then
      match h : tryMatchBody rest with
      | some (p, rest2) => p.asString :: findParams rest2
      | none => findParams rest
    else findParams rest
termination_by l => l.length
decreasing_by
  · simp
    exact Nat.lt_succ_of_lt (tryMatchBody_length h)
  · simp
  · simp

/-- _extract_path_params: re.findall(r"\\\x7b([^\x7d]+)\\\x7d", path). -/
def extract_path_params (path : String) : List String :=
  findParams path.data

-- ===========================================================================
-- Example data and GET /api/examples/{example_id} (main1_excercise.py 222-437)
-- ===========================================================================

/-- One endpoint dict of the example payloads. -/
structure ExampleEndpoint where
  path : String
  method : String
  description : String
  parameters : String
  request_body : String
  responses : String
  tags : List String
deriving DecidableEq

/-- One example spec dict. -/
structure ExampleSpec where
  name : String
  description : String
  version : String
  framework : String
  database : String
  authentication : String
  endpoints : List ExampleEndpoint
deriving DecidableEq

def USER_MANAGEMENT_EXAMPLE : ExampleSpec :=
  { name := "User Management API"
    description := "사용자 등록, 인증, 프로필 관리를 위한 REST API"
    version := "1.0.0"
    framework := "fastapi"
    database := "postgresql"
    authentication := "jwt"
    endpoints :=
      [ { path := "/api/auth/register", method := "POST", description := "새 사용자 등록"
          parameters := "없음"
          request_body := "\x7b\"username\": \"testuser\", \"email\": \"test@example.com\", \"password\": \"password123\"\x7d"
          responses := "\x7b\"success\": true, \"message\": \"User created\", \"data\": \x7b\"id\": 1, \"username\": \"testuser\"\x7d\x7d"
          tags := ["authentication"] }
      , { path := "/api/auth/login", method := "POST", description := "사용자 로그인"
          parameters := "없음"
          request_body := "\x7b\"username\": \"testuser\", \"password\": \"password123\"\x7d"
          responses := "\x7b\"access_token\": \"jwt_token_here\", \"token_type\": \"bearer\"\x7d"
          tags := ["authentication"] }
      , { path := "/api/users", method := "GET", description := "사용자 목록 조회"
          parameters := "page, limit (선택사항)"
          request_body := "없음"
          responses := "\x7b\"success\": true, \"data\": \x7b\"items\": [], \"total\": 10\x7d\x7d"
          tags := ["users"] }
      , { path := "/api/users/\x7buser_id\x7d", method := "GET", description := "특정 사용자 정보 조회"
          parameters := "user_id: 사용자 ID"
          request_body := "없음"
          responses := "\x7b\"success\": true, \"data\": \x7b\"id\": 1, \"username\": \"testuser\", \"email\": \"test@example.com\"\x7d\x7d"
          tags := ["users"] } ] }

def BLOG_SYSTEM_EXAMPLE : ExampleSpec :=
  { name := "Blog System API"
    description := "블로그 포스트 작성, 댓글, 카테고리 관리 API"
    version := "1.2.0"
    framework := "fastapi"
    database := "mysql"
    authentication := "jwt"
    endpoints :=
      [ { path := "/api/posts", method := "GET", description := "블로그 포스트 목록 조회"
          parameters := "page, category, search (선택사항)"
          request_body := "없음"
          responses := "\x7b\"success\": true, \"data\": \x7b\"items\": [], \"total\": 50, \"page\": 1\x7d\x7d"
          tags := ["posts"] }
      , { path := "/api/posts", method := "POST", description := "새 블로그 포스트 작성"
          parameters := "인증 필요"
          request_body := "\x7b\"title\": \"My Blog Post\", \"content\": \"Post content here\", \"category_id\": 1\x7d"
          responses := "\x7b\"success\": true, \"data\": \x7b\"id\": 1, \"title\": \"My Blog Post\", \"slug\": \"my-blog-post\"\x7d\x7d"
          tags := ["posts"] }
      , { path := "/api/posts/\x7bpost_id\x7d", method := "GET", description := "특정 블로그 포스트 조회"
          parameters := "post_id: 포스트 ID"
          request_body := "없음"
          responses := "\x7b\"success\": true, \"data\": \x7b\"id\": 1, \"title\": \"Post Title\", \"content\": \"Full content\", \"comments\": []\x7d\x7d"
          tags := ["posts"] }
      , { path := "/api/categories", method := "GET", description := "카테고리 목록 조회"
          parameters := "없음"
          request_body := "없음"
          responses := "\x7b\"success\": true, \"data\": [\x7b\"id\": 1, \"name\": \"Technology\", \"post_count\": 15\x7d]\x7d"
          tags := ["categories"] } ] }

def ECOMMERCE_EXAMPLE : ExampleSpec :=
  { name := "E-commerce API"
    description := "온라인 쇼핑몰을 위한 완전한 전자상거래 API"
    version := "2.0.0"
    framework := "fastapi"
    database := "postgresql"
    authentication := "jwt"
    endpoints :=
      [ { path := "/api/products", method := "GET", description := "상품 목록 조회"
          parameters := "category, min_price, max_price, search"
          request_body := "없음"
          responses := "\x7b\"success\": true, \"data\": \x7b\"items\": [], \"total\": 200, \"filters\": \x7b\x7d\x7d\x7d"
          tags := ["products"] }
      , { path := "/api/products/\x7bproduct_id\x7d", method := "GET", description := "상품 상세 정보 조회"
          parameters := "product_id: 상품 ID"
          request_body := "없음"
          responses := "\x7b\"success\": true, \"data\": \x7b\"id\": 1, \"name\": \"Product Name\", \"price\": 99.99, \"images\": []\x7d\x7d"
          tags := ["products"] }
      , { path := "/api/cart", method := "GET", description := "장바구니 조회"
          parameters := "인증 필요"
          request_body := "없음"
          responses := "\x7b\"success\": true, \"data\": \x7b\"items\": [], \"total_amount\": 199.99, \"item_count\": 3\x7d\x7d"
          tags := ["cart"] }
      , { path := "/api/cart/items", method := "POST", description := "장바구니에 상품 추가"
          parameters := "인증 필요"
          request_body := "\x7b\"product_id\": 1, \"quantity\": 2\x7d"
          responses := "\x7b\"success\": true, \"message\": \"Item added to cart\", \"data\": \x7b\"cart_total\": 149.99\x7d\x7d"
          tags := ["cart"] }
      , { path := "/api/orders", method := "POST", description := "주문 생성"
          parameters := "인증 필요"
          request_body := "\x7b\"items\": [\x7b\"product_id\": 1, \"quantity\": 2\x7d], \"shipping_address\": \x7b\x7d\x7d"
          responses := "\x7b\"success\": true, \"data\": \x7b\"order_id\": \"ORD-001\", \"total_amount\": 199.99, \"status\": \"pending\"\x7d\x7d"
          tags := ["orders"] } ] }

/-- The examples dict built inside get_example (main1_excercise.py 428-432). -/
def examplesTable : List (String × ExampleSpec) :=
  [ ("user_management", USER_MANAGEMENT_EXAMPLE)
  , ("blog_system", BLOG_SYSTEM_EXAMPLE)
  , ("ecommerce", ECOMMERCE_EXAMPLE) ]

/-- GET /api/examples/\x7bexample_id\x7d: 404 when the id is not a key of the
dict, otherwise the stored example value itself. -/
def get_example (example_id : String) : Except HTTPError ExampleSpec :=
  match examplesTable.lookup example_id with
  | none => .error ⟨404, "예제를 찾을 수 없습니다"⟩
  | some ex => .ok ex

-- ===========================================================================
-- user_management_system/models.py: PaginatedResponse (lines 83-92)
-- ===========================================================================

/-- class PaginatedResponse(BaseModel) of user_management_system/models.py.
Python ints are unbounded, hence Int. -/
structure PaginatedResponse where
  items : List (List (String × Json))
  total : Int
  page : Int := 1
  size : Int := 10
  pages : Int

/-- calculate_pages: self.pages = (self.total + self.size - 1) // self.size;
return self.  Python // is floor division (Int.fdiv) and raises
ZeroDivisionError when the divisor is zero. -/
def PaginatedResponse.calculate_pages (self : PaginatedResponse) :
    Except PyError PaginatedResponse :=
  if self.size = 0 then .error .zeroDivisionError
  else .ok { self with pages := (self.total + self.size - 1).fdiv self.size }

-- ===========================================================================
-- AIEnhancedCodeGenerator: spec dicts and _generate_enhanced_requirements
-- (ai_code_gen.py 753-791)
-- ===========================================================================

/-- An endpoint dict as consumed by the enhanced generator (plain dict in the
source; none models an absent key). -/
structure EndpointDict where
  path : String
  method : String
  description : String
  parameters : Option String := none
  request_body : Option String := none
  responses : Option String := none
  tags : Option (List String) := none
  ai_generated_logic : Option String := none
  business_logic : Option String := none

/-- A spec dict as consumed by the enhanced generator; name and description
are accessed with [] (the callers always supply them), the rest with .get. -/
structure SpecDict where
  name : String
  description : String
  version : Option String := none
  framework : Option String := none
  database : Option String := none
  authentication : Option String := none
  endpoints : Option (List EndpointDict) := none

/-- The base_requirements list of _generate_enhanced_requirements: always
present, independent of database and authentication. -/
def enhancedBaseRequirements : List String :=
  [ "fastapi==0.104.1"
  , "uvicorn[standard]==0.24.0"
  , "pydantic==2.5.0"
  , "sqlalchemy==2.0.23"
  , "alembic==1.13.0"
  , "python-jose[cryptography]==3.3.0"
  , "passlib[bcrypt]==1.7.4"
  , "python-multipart==0.0.6"
  , "python-dotenv==1.0.0"
  , "redis==5.0.1"
  , "celery==5.3.4"
  , "httpx==0.25.2"
  , "structlog==23.2.0"
  , "sentry-sdk[fastapi]==1.38.0"
  , "pytest==7.4.3"
  , "pytest-asyncio==0.21.1"
  , "black==23.11.0"
  , "isort==5.12.0"
  , "mypy==1.7.1" ]

/-- The db_drivers dict of _generate_enhanced_requirements. -/
def db_drivers : List (String × List String) :=
  [ ("postgresql", ["psycopg2-binary==2.9.9"])
  , ("mysql", ["pymysql==1.1.0"])
  , ("mongodb", ["motor==3.3.2", "pymongo==4.6.0"])
  , ("sqlite", []) ]

/-- all_requirements = base_requirements + db_drivers.get(db_type, []) with
db_type = spec.get("database", "sqlite"). -/
def enhancedRequirementsList (spec : SpecDict) : List String :=
  enhancedBaseRequirements ++ ((db_drivers.lookup (spec.database.getD "sqlite")).getD [])

/-- _generate_enhanced_requirements joins with a real newline. -/
def generate_enhanced_requirements (spec : SpecDict) : String :=
  String.intercalate "\n" (enhancedRequirementsList spec)

-- ===========================================================================
-- AIEnhancedCodeGenerator._generate_enhanced_documentation (ai_code_gen.py
-- 793-937): one f-string; datetime.now().isoformat() is the argument now.
-- ===========================================================================

/-- The markdown block emitted for one endpoint (the per-endpoint f-string of
the "".join comprehension, ai_code_gen.py 841-880); conditional pieces follow
Python truthiness of the .get results. -/
def docEndpointSection (endpoint : EndpointDict) : String :=
  "\n### " ++ endpoint.method ++ " " ++ endpoint.path
  ++ "\n\n**설명**: " ++ endpoint.description
  ++ "\n\n**태그**: " ++ String.intercalate ", " (endpoint.tags.getD [])
  ++ "\n\n"
  ++ (if pyTruthyStr endpoint.parameters then
        "**파라미터**: " ++ endpoint.parameters.getD "None"
      else "")
  ++ "\n\n"
  ++ (if pyTruthyStr endpoint.request_body then
        "**요청 본문**:\n```json\n" ++ endpoint.request_body.getD "None" ++ "\n```"
      else "")
  ++ "\n\n**응답**:\n```json\n"
  ++ endpoint.responses.getD "\x7b\"success\": true, \"data\": \x7b\x7d, \"timestamp\": \"2024-01-01T00:00:00\"\x7d"
  ++ "\n```\n\n"
  ++ (if pyTruthyStr endpoint.ai_generated_logic then
        "**AI 생성 로직**: 이 엔드포인트는 AI가 비즈니스 로직을 자동 생성했습니다."
      else "")
  ++ "\n\n---\n"

/-- The literal document text before the interpolated clock reading. -/
def docHead (spec : SpecDict) : String :=
  "# " ++ spec.name ++ " API Documentation\n\n## 🤖 AI-Enhanced API\n\n이 API는 AI 기술을 활용하여 자동 생성되었습니다.\n\n- **생성 일시**: "

/-- The document text after the interpolated clock reading. -/
def docTail (spec : SpecDict) : String :=
  "\n- **AI 모델**: GPT-4\n- **코드 품질**: AI 검토 및 최적화 완료\n\n## 📋 API 개요\n\n"
  ++ spec.description
  ++ "\n\n### 🔧 기술 스택\n- **프레임워크**: " ++ spec.framework.getD "FastAPI"
  ++ "\n- **데이터베이스**: " ++ spec.database.getD "PostgreSQL"
  ++ "\n- **인증**: " ++ spec.authentication.getD "JWT"
  ++ "\n- **AI 향상**: 비즈니스 로직 자동 생성\n\n### 🚀 빠른 시작\n\n```bash\n# 1. 의존성 설치\npip install -r requirements.txt\n\n# 2. 환경변수 설정\ncp .env.example .env\n# .env 파일을 편집하여 설정\n\n# 3. 데이터베이스 마이그레이션\nalembic upgrade head\n\n# 4. 서버 실행\npython main.py\n```\n\n### 📖 API 문서\n- **Swagger UI**: http://localhost:8000/docs\n- **ReDoc**: http://localhost:8000/redoc\n\n## 🔗 엔드포인트\n\n"
  ++ String.join ((spec.endpoints.getD []).map docEndpointSection)
  ++ "\n\n## 🔒 인증\n\n"
  ++ (if spec.authentication.getD "none" ≠ "none" then
        "이 API는 " ++ spec.authentication.getD "JWT" ++ " 인증을 사용합니다."
      else "인증이 필요하지 않습니다.")
  ++ "\n\n## 🧪 테스트\n\n```bash\n# 단위 테스트 실행\npytest\n\n# 커버리지 확인\npytest --cov=.\n\n# API 테스트 (서버 실행 후)\ncurl http://localhost:8000/health\n```\n\n## 🚀 배포\n\n### Docker 배포\n```bash\ndocker build -t "
  ++ spec.name.toLower.replace " " "-"
  ++ "-api .\ndocker run -p 8000:8000 "
  ++ spec.name.toLower.replace " " "-"
  ++ "-api\n```\n\n### 프로덕션 설정\n1. 환경변수 보안 설정\n2. HTTPS 인증서 설정\n3. 로드 밸런서 구성\n4. 모니터링 시스템 연동\n\n## 🤖 AI 기능\n\n이 API는 다음 AI 기능들이 적용되었습니다:\n\n- ✅ **자동 비즈니스 로직 생성**: 각 엔드포인트의 핵심 로직 자동 구현\n- ✅ **코드 품질 최적화**: AI 코드 리뷰 및 개선사항 자동 적용\n- ✅ **보안 강화**: AI 권장 보안 패턴 적용\n- ✅ **성능 최적화**: 효율적인 데이터베이스 쿼리 및 캐싱 전략\n- ✅ **에러 처리**: 포괄적인 예외 처리 및 로깅\n\n## 📞 지원\n\n문제가 발생하거나 개선사항이 있으면 이슈를 등록해주세요.\n\n---\n*이 문서는 AI에 의해 자동 생성되었습니다.*\n"

/-- _generate_enhanced_documentation: the full f-string, with the single
datetime.now().isoformat() interpolation made an explicit argument. -/
def enhancedDocumentation (spec : SpecDict) (now : String) : String :=
  docHead spec ++ now ++ docTail spec

-- ===========================================================================
-- Helper lemmas
-- ===========================================================================

theorem string_append_middle_cancel {a b t1 t2 : String}
    (h : a ++ t1 ++ b = a ++ t2 ++ b) : t1 = t2 := by
  have hd := congrArg String.data h
  simp only [String.data_append, List.append_assoc] at hd
  have h2 := List.append_cancel_left hd
  have h3 := List.append_cancel_right h2
  exact congrArg String.mk h3

/-- The single clock interpolation point makes the enhanced documentation
injective in the clock reading once the specification is fixed. -/
theorem enhancedDocumentation_now_inj (spec : SpecDict) {t1 t2 : String}
    (h : enhancedDocumentation spec t1 = enhancedDocumentation spec t2) :
    t1 = t2 :=
  string_append_middle_cancel h

theorem strListOfJson_map (l : List String) :
    strListOfJson (l.map Json.str) = some l := by
  induction l with
  | nil => rfl
  | cons s rest ih => simp [strListOfJson, ih]

theorem findParams_no_backslash : ∀ (l : List Char), '\\' ∉ l → findParams l = []
  | [], _ => by simp [findParams]
  | c :: rest, h => by
    have hc : ¬(c = '\\') := fun hc => h (by simp [hc])
    have hr : '\\' ∉ rest := fun hm => h (List.mem_cons_of_mem _ hm)
    unfold findParams
    rw [if_neg hc]
    exact findParams_no_backslash rest hr

-- ===========================================================================
-- Claim C2
-- ===========================================================================

/-- C2: whenever the OpenAI API key is not configured, the
generate-from-description operation fails with HTTP 503 and no
chat-completion call is attempted — both in the main3 endpoint, whose
OPENAI_API_KEY environment check fires before anything else, and in
AICodeGenerator.generate_api_spec_from_description itself, whose client
check fires before the request is built. -/
theorem missing_key_503 (envKey : Option String) (clientConfigured : Bool)
    (parse : String → Except String Json) (reply tb : String)
    (henv : pyTruthyStr envKey = false) :
    generate_api_from_description envKey clientConfigured parse reply tb
      = ⟨false, .error ⟨503,
          "OpenAI API 키가 설정되지 않았습니다. .env 파일에 OPENAI_API_KEY를 설정해주세요."⟩⟩
    ∧ (generate_api_spec_from_description false parse reply).callAttempted = false
    ∧ (generate_api_spec_from_description false parse reply).result
        = .error ⟨503, "OpenAI API가 설정되지 않았습니다"⟩ := by
  refine ⟨?_, rfl, rfl⟩
  unfold generate_api_from_description
  rw [if_pos henv]

theorem missing_key_503_witness :
    generate_api_from_description none false (fun _ => .error "x") "reply" "tb"
      = ⟨false, .error ⟨503,
          "OpenAI API 키가 설정되지 않았습니다. .env 파일에 OPENAI_API_KEY를 설정해주세요."⟩⟩ :=
  (missing_key_503 none false (fun _ => .error "x") "reply" "tb" rfl).1

-- ===========================================================================
-- Claim C3
-- ===========================================================================

/-- C3: for every model reply whose content, stripped and code-fence
stripped, is not valid JSON, the wrapper catches the decode failure and
raises HTTP 500 whose detail identifies an AI-response parsing error,
rather than propagating the exception. -/
theorem parse_error_500 (parse : String → Except String Json) (reply e : String)
    (h : parse (stripFences (pyStrip reply)) = .error e) :
    (generate_api_spec_from_description true parse reply).result
      = .error ⟨500, "AI 응답 파싱 오류: " ++ e⟩ := by
  unfold generate_api_spec_from_description
  simp [h]

def parseAlwaysFails : String → Except String Json :=
  fun _ => .error "Expecting value: line 1 column 1 (char 0)"

theorem parse_error_500_witness :
    (generate_api_spec_from_description true parseAlwaysFails "not json").result
      = .error ⟨500, "AI 응답 파싱 오류: Expecting value: line 1 column 1 (char 0)"⟩ :=
  parse_error_500 parseAlwaysFails "not json" _ rfl

-- ===========================================================================
-- Claim C4
-- ===========================================================================

/-- C4: if the chat-completion call or the parsing of its reply fails for any
reason, review_and_optimize_code returns the hardcoded fallback dict
(quality_score 70, issues [], optimized_code = the input code, unchanged);
with no client configured the same fallback is returned and no call is
made. -/
theorem review_fallback_spec (code : String) (call : Except String String)
    (parse : String → Except String Json) :
    review_and_optimize_code false call parse code = ⟨false, reviewFallback code⟩
    ∧ (∀ m, call = .error m →
        review_and_optimize_code true call parse code = ⟨true, reviewFallback code⟩)
    ∧ (∀ reply e, call = .ok reply →
        parse (stripFences (pyStrip reply)) = .error e →
        review_and_optimize_code true call parse code = ⟨true, reviewFallback code⟩) := by
  refine ⟨rfl, ?_, ?_⟩
  · intro m hm; subst hm; rfl
  · intro reply e hc hp
    subst hc
    unfold review_and_optimize_code
    simp [hp]

theorem review_fallback_spec_witness :
    review_and_optimize_code true (.error "boom") parseAlwaysFails "mycode"
      = ⟨true, reviewFallback "mycode"⟩
    ∧ review_and_optimize_code false (.ok "reply") parseAlwaysFails "mycode"
      = ⟨false, reviewFallback "mycode"⟩ :=
  ⟨(review_fallback_spec "mycode" (.error "boom") parseAlwaysFails).2.1 "boom" rfl,
   (review_fallback_spec "mycode" (.ok "reply") parseAlwaysFails).1⟩

-- ===========================================================================
-- Claim C8
-- ===========================================================================

/-- C8: the extraction regex requires a literal backslash before each brace,
so every path containing no backslash character — every ordinary path —
yields the empty parameter list. -/
theorem extract_path_params_nil (path : String) (h : '\\' ∉ path.data) :
    extract_path_params path = [] :=
  findParams_no_backslash path.data h

theorem extract_path_params_nil_witness :
    extract_path_params "/api/users/\x7buser_id\x7d" = [] :=
  extract_path_params_nil "/api/users/\x7buser_id\x7d" (by decide)

-- ===========================================================================
-- Claim C9
-- ===========================================================================

/-- C9: the example-lookup endpoint raises 404 exactly when the id is not
one of user_management, blog_system, ecommerce; each stored id returns its
stored example value itself, unchanged — the stored constants are fixed
values the lookup never modifies. -/
theorem get_example_spec (example_id : String) :
    (example_id ∉ ["user_management", "blog_system", "ecommerce"] →
       get_example example_id = .error ⟨404, "예제를 찾을 수 없습니다"⟩)
    ∧ (example_id ∈ ["user_management", "blog_system", "ecommerce"] →
       exceptIsOk (get_example example_id) = true)
    ∧ get_example "user_management" = .ok USER_MANAGEMENT_EXAMPLE
    ∧ get_example "blog_system" = .ok BLOG_SYSTEM_EXAMPLE
    ∧ get_example "ecommerce" = .ok ECOMMERCE_EXAMPLE := by
  refine ⟨?_, ?_, rfl, rfl, rfl⟩
  · intro h
    simp only [List.mem_cons, List.not_mem_nil, or_false, not_or] at h
    obtain ⟨h1, h2, h3⟩ := h
    have e1 : (example_id == "user_management") = false := beq_eq_false_iff_ne.mpr h1
    have e2 : (example_id == "blog_system") = false := beq_eq_false_iff_ne.mpr h2
    have e3 : (example_id == "ecommerce") = false := beq_eq_false_iff_ne.mpr h3
    unfold get_example examplesTable
    simp [List.lookup, e1, e2, e3]
  · intro h
    simp only [List.mem_cons, List.not_mem_nil, or_false] at h
    rcases h with rfl | rfl | rfl <;> rfl

theorem get_example_spec_witness :
    get_example "nonexistent" = .error ⟨404, "예제를 찾을 수 없습니다"⟩
    ∧ exceptIsOk (get_example "ecommerce") = true :=
  ⟨(get_example_spec "nonexistent").1 (by decide),
   (get_example_spec "ecommerce").2.1 (by decide)⟩

-- ===========================================================================
-- Claim C10
-- ===========================================================================

/-- C10: for every PaginatedResponse with total ≥ 0 and size > 0,
calculate_pages sets pages to (total + size - 1) // size, which equals the
integer ceiling of total / size, leaves the other fields unchanged and
returns the updated object; with size = 0 the floor division raises
ZeroDivisionError. -/
theorem calculate_pages_ceiling (r : PaginatedResponse)
    (h0 : 0 ≤ r.total) (h1 : 0 < r.size) :
    r.calculate_pages = .ok { r with pages := (r.total + r.size - 1).fdiv r.size }
    ∧ (r.total + r.size - 1).fdiv r.size = ⌈(r.total : ℚ) / (r.size : ℚ)⌉
    ∧ (∀ r2 : PaginatedResponse, r2.size = 0 →
        r2.calculate_pages = .error PyError.zeroDivisionError) := by
  refine ⟨?_, ?_, ?_⟩
  · unfold PaginatedResponse.calculate_pages
    rw [if_neg (by omega)]
  · rw [Int.fdiv_eq_ediv _ (by omega)]
    have hs : (0 : ℚ) < (r.size : ℚ) := by exact_mod_cast h1
    have hdm := Int.ediv_add_emod (r.total + r.size - 1) r.size
    have hm0 := Int.emod_nonneg (r.total + r.size - 1) (by omega : r.size ≠ 0)
    have hml := Int.emod_lt_of_pos (r.total + r.size - 1) h1
    obtain ⟨X, hX⟩ : ∃ X, r.size * ((r.total + r.size - 1) / r.size) = X := ⟨_, rfl⟩
    have key1 : r.total ≤ r.size * ((r.total + r.size - 1) / r.size) := by
      rw [hX] at hdm ⊢; omega
    have key2 : r.size * ((r.total + r.size - 1) / r.size) - r.size < r.total := by
      rw [hX] at hdm ⊢; omega
    symm
    rw [Int.ceil_eq_iff]
    constructor
    · rw [lt_div_iff hs]
      have h2q : ((r.size : ℚ)) * ((((r.total + r.size - 1) / r.size) : ℤ) : ℚ)
          - (r.size : ℚ) < (r.total : ℚ) := by exact_mod_cast key2
      have hring : ((((r.total + r.size - 1) / r.size : ℤ) : ℚ) - 1) * (r.size : ℚ)
          = (r.size : ℚ) * ((((r.total + r.size - 1) / r.size) : ℤ) : ℚ) - (r.size : ℚ) := by
        ring
      rw [hring]
      exact h2q
    · rw [div_le_iff hs, mul_comm]
      exact_mod_cast key1
  · intro r2 h2
    unfold PaginatedResponse.calculate_pages
    rw [if_pos h2]

theorem calculate_pages_ceiling_witness :
    ({ items := [], total := 10, size := 3, pages := 0 } :
        PaginatedResponse).calculate_pages
      = .ok { items := [], total := 10, size := 3, pages := 4 }
    ∧ ({ items := [], total := 10, size := 0, pages := 0 } :
        PaginatedResponse).calculate_pages = .error PyError.zeroDivisionError := by
  have h := calculate_pages_ceiling
    { items := [], total := 10, size := 3, pages := 0 } (by decide) (by decide)
  exact ⟨by rw [h.1]; rfl, h.2.2 _ rfl⟩

-- ===========================================================================
-- Claim C1
-- ===========================================================================

def mongoSpecDict : SpecDict :=
  { name := "M", description := "d", database := some "mongodb" }

/-- C1 counterexample: in the enhanced requirements generator
(_generate_enhanced_requirements), a mongodb specification still receives
the sqlalchemy and alembic packages — they sit in the unconditional base
list — contradicting the claim that choosing mongodb omits them. -/
theorem enhanced_mongo_keeps_sqlalchemy :
    mongoSpecDict.database = some "mongodb"
    ∧ "sqlalchemy==2.0.23" ∈ enhancedRequirementsList mongoSpecDict
    ∧ "alembic==1.13.0" ∈ enhancedRequirementsList mongoSpecDict := by
  refine ⟨rfl, ?_, ?_⟩ <;> decide

/-- C1 (amended): in the basic generator (_generate_requirements) the claimed
mapping holds exactly: postgresql adds psycopg2-binary, mysql adds pymysql,
mongodb adds motor and omits sqlalchemy/alembic, sqlite adds no driver, and
non-none authentication adds python-jose and passlib.  In the enhanced
generator the same driver mapping holds (mongodb additionally gets pymongo
and sqlite adds no driver), but sqlalchemy/alembic and the two auth
packages are always included, regardless of database and authentication. -/
theorem requirements_mapping (s : APISpecModel) (d : SpecDict) :
    ((s.database = Database.POSTGRESQL →
        "psycopg2-binary==2.9.9" ∈ requirementsList s)
     ∧ (s.database = Database.MYSQL → "pymysql==1.1.0" ∈ requirementsList s)
     ∧ (s.database = Database.MONGODB →
          "motor==3.3.2" ∈ requirementsList s
          ∧ "sqlalchemy==2.0.23" ∉ requirementsList s
          ∧ "alembic==1.13.0" ∉ requirementsList s)
     ∧ (s.database = Database.SQLITE →
          "psycopg2-binary==2.9.9" ∉ requirementsList s
          ∧ "pymysql==1.1.0" ∉ requirementsList s
          ∧ "motor==3.3.2" ∉ requirementsList s)
     ∧ (s.authentication ≠ AuthMethod.NONE →
          "python-jose[cryptography]==3.3.0" ∈ requirementsList s
          ∧ "passlib[bcrypt]==1.7.4" ∈ requirementsList s))
    ∧ ((d.database = some "postgresql" →
          "psycopg2-binary==2.9.9" ∈ enhancedRequirementsList d)
       ∧ (d.database = some "mysql" →
          "pymysql==1.1.0" ∈ enhancedRequirementsList d)
       ∧ (d.database = some "mongodb" →
          "motor==3.3.2" ∈ enhancedRequirementsList d
          ∧ "pymongo==4.6.0" ∈ enhancedRequirementsList d)
       ∧ (d.database = some "sqlite" →
          "psycopg2-binary==2.9.9" ∉ enhancedRequirementsList d
          ∧ "pymysql==1.1.0" ∉ enhancedRequirementsList d
          ∧ "motor==3.3.2" ∉ enhancedRequirementsList d)
       ∧ "sqlalchemy==2.0.23" ∈ enhancedRequirementsList d
       ∧ "alembic==1.13.0" ∈ enhancedRequirementsList d
       ∧ "python-jose[cryptography]==3.3.0" ∈ enhancedRequirementsList d
       ∧ "passlib[bcrypt]==1.7.4" ∈ enhancedRequirementsList d) := by
  constructor
  · obtain ⟨n, de, v, f, db, a, eps⟩ := s
    cases db <;> cases a <;> simp [requirementsList]
  · refine ⟨?_, ?_, ?_, ?_, ?_, ?_, ?_, ?_⟩
    · intro h; unfold enhancedRequirementsList; rw [h]; decide
    · intro h; unfold enhancedRequirementsList; rw [h]; decide
    · intro h; unfold enhancedRequirementsList; rw [h]; exact ⟨by decide, by decide⟩
    · intro h; unfold enhancedRequirementsList; rw [h]; exact ⟨by decide, by decide, by decide⟩
    · exact List.mem_append_left _ (by decide)
    · exact List.mem_append_left _ (by decide)
    · exact List.mem_append_left _ (by decide)
    · exact List.mem_append_left _ (by decide)

def mongoSpec : APISpecModel :=
  { name := "m", description := "d", version := "1.0.0", framework := .FASTAPI,
    database := .MONGODB, authentication := .JWT, endpoints := [] }

theorem requirements_mapping_witness :
    ("motor==3.3.2" ∈ requirementsList mongoSpec
     ∧ "sqlalchemy==2.0.23" ∉ requirementsList mongoSpec
     ∧ "alembic==1.13.0" ∉ requirementsList mongoSpec)
    ∧ ("python-jose[cryptography]==3.3.0" ∈ requirementsList mongoSpec
       ∧ "passlib[bcrypt]==1.7.4" ∈ requirementsList mongoSpec)
    ∧ "motor==3.3.2" ∈ enhancedRequirementsList mongoSpecDict :=
  ⟨(requirements_mapping mongoSpec mongoSpecDict).1.2.2.1 rfl,
   (requirements_mapping mongoSpec mongoSpecDict).1.2.2.2.2 (by decide),
   ((requirements_mapping mongoSpec mongoSpecDict).2.2.2.1 rfl).1⟩

-- ===========================================================================
-- Claim C6
-- ===========================================================================

def demoSpecDict : SpecDict := { name := "Demo API", description := "demo" }

/-- C6 counterexample: the enhanced documentation generator is not a pure
function of the specification: the same specification dict rendered at two
different datetime.now() readings yields two different strings. -/
theorem documentation_not_spec_pure :
    enhancedDocumentation demoSpecDict "2024-01-01T00:00:00"
      ≠ enhancedDocumentation demoSpecDict "2024-01-01T00:00:01" :=
  fun h => absurd (enhancedDocumentation_now_inj demoSpecDict h) (by decide)

/-- C6 (amended): the template components with no clock interpolation are
pure functions of the specification — the basic requirements generator
depends only on the database and authentication fields — while the
AI-enhanced documentation generator (like the enhanced main-code and models
generators) also interpolates datetime.now(): with the clock reading made an
explicit argument, two renderings of a fixed specification are equal exactly
when the clock readings are equal. -/
theorem generator_purity (s1 s2 : APISpecModel) (d : SpecDict) (t1 t2 : String) :
    (s1.database = s2.database → s1.authentication = s2.authentication →
       requirementsList s1 = requirementsList s2)
    ∧ (enhancedDocumentation d t1 = enhancedDocumentation d t2 ↔ t1 = t2) := by
  constructor
  · intro h1 h2
    unfold requirementsList
    rw [h1, h2]
  · exact ⟨fun h => enhancedDocumentation_now_inj d h, fun h => by rw [h]⟩

theorem generator_purity_witness :
    requirementsList mongoSpec = requirementsList mongoSpec
    ∧ (enhancedDocumentation demoSpecDict "T0" = enhancedDocumentation demoSpecDict "T0"
        ↔ ("T0" : String) = "T0") :=
  ⟨(generator_purity mongoSpec mongoSpec demoSpecDict "T0" "T0").1 rfl rfl,
   (generator_purity mongoSpec mongoSpec demoSpecDict "T0" "T0").2⟩

-- ===========================================================================
-- Claim C7
-- ===========================================================================

def emptyNameInput : APISpecInput :=
  { name := some "", description := some "",
    endpoints := some [{ path := some "", method := some "GET", description := some "" }] }

/-- C7 counterexample: constructing an APISpecModel with an empty name and an
EndpointModel with an empty path is accepted, not rejected — the declared
Fields carry no length or non-emptiness constraint — and attribute
assignment after construction succeeds and changes the object, so the
fields are not immutable. -/
theorem empty_name_accepted :
    validateAPISpec emptyNameInput
      = .ok { name := "", description := "", version := "1.0.0",
              framework := .FASTAPI, database := .POSTGRESQL,
              authentication := .JWT,
              endpoints := [{ path := "", method := .GET, description := "",
                              parameters := none, request_body := none,
                              responses := none, tags := [] }] }
    ∧ ({ name := "a", description := "d", version := "1.0.0",
         framework := .FASTAPI, database := .POSTGRESQL, authentication := .JWT,
         endpoints := [] } : APISpecModel).assign_name "b"
        ≠ { name := "a", description := "d", version := "1.0.0",
            framework := .FASTAPI, database := .POSTGRESQL, authentication := .JWT,
            endpoints := [] } :=
  ⟨rfl, by decide⟩

/-- C7 (amended): construction of the two models checks only field presence
and enum validity: any name, description and path — empty strings included —
are accepted unchanged, the declared defaults are filled in for the absent
fields, and a constructed object is mutable, assignment replacing the field
value (pydantic default configuration). -/
theorem validation_only_presence (name desc path edesc v : String)
    (m : APISpecModel) :
    validateAPISpec { name := some name, description := some desc, endpoints := some [] }
      = .ok { name := name, description := desc, version := "1.0.0",
              framework := .FASTAPI, database := .POSTGRESQL,
              authentication := .JWT, endpoints := [] }
    ∧ validateEndpoint { path := some path, method := some "GET", description := some edesc }
      = .ok { path := path, method := .GET, description := edesc,
              parameters := none, request_body := none, responses := none, tags := [] }
    ∧ (m.assign_name v).name = v :=
  ⟨rfl, rfl, rfl⟩

-- ===========================================================================
-- Claim C5
-- ===========================================================================

/-- Reduction of the wrapper on a reply parsing to a JSON object whose three
optional keys resolve to type-correct values. -/
theorem generate_ok (parse : String → Except String Json) (reply : String)
    (fields : List (String × Json)) (R : String) (sl : List Json)
    (L : List String) (C : Rat)
    (hp : parse (stripFences (pyStrip reply)) = .ok (.obj fields))
    (hr : (fields.lookup "reasoning").getD (.str "AI 생성 결과") = .str R)
    (hs : (fields.lookup "suggestions").getD (.arr []) = .arr sl)
    (hsl : strListOfJson sl = some L)
    (hc : (fields.lookup "confidence_score").getD (.num 0.8) = .num C) :
    (generate_api_spec_from_description true parse reply).result
      = .ok ⟨fields, R, L, C⟩ := by
  unfold generate_api_spec_from_description
  rw [if_neg (by decide)]
  dsimp only
  rw [hp]
  dsimp only
  unfold buildAIGeneratedSpec
  dsimp only [Json.get]
  rw [hr, hs, hc]
  dsimp only
  rw [hsl]

def parseEmptyArr : String → Except String Json :=
  fun s => if s = "[]" then .ok (.arr []) else .error "Expecting value"

/-- C5 counterexample: the reply "[]" parses as valid JSON (an empty list),
yet generate_api_spec_from_description does not succeed and return it as
api_spec: result.get on the non-dict value raises AttributeError, caught by
the generic handler as HTTP 500 — refuting "succeeds for every reply whose
content parses as valid JSON". -/
theorem valid_json_not_ok :
    parseEmptyArr (stripFences (pyStrip "[]")) = .ok (.arr [])
    ∧ exceptIsOk (generate_api_spec_from_description true parseEmptyArr "[]").result
        = false :=
  ⟨rfl, rfl⟩

/-- C5 (amended): the model output undergoes no schema validation beyond
json.loads and the declared field types of AIGeneratedSpec: every reply
whose stripped content parses as a JSON object — with reasoning,
suggestions and confidence_score, when present, a string, a list of
strings, and a number — succeeds, returns the parsed object unmodified as
api_spec, and fills the defaults (the Korean default reasoning text, [],
0.8) exactly when those keys are absent, regardless of whether the object
matches the endpoint/spec shape requested in the prompt; a reply parsing to
valid non-object JSON instead fails with the generic 500 error. -/
theorem loose_spec_validation (parse : String → Except String Json)
    (reply : String) (fields : List (String × Json))
    (hp : parse (stripFences (pyStrip reply)) = .ok (.obj fields))
    (h1 : fields.lookup "reasoning" = none
          ∨ ∃ s, fields.lookup "reasoning" = some (.str s))
    (h2 : fields.lookup "suggestions" = none
          ∨ ∃ sl l, fields.lookup "suggestions" = some (.arr sl)
              ∧ strListOfJson sl = some l)
    (h3 : fields.lookup "confidence_score" = none
          ∨ ∃ q, fields.lookup "confidence_score" = some (.num q)) :
    ∃ r, (generate_api_spec_from_description true parse reply).result = .ok r
      ∧ r.api_spec = fields
      ∧ (fields.lookup "reasoning" = none → r.reasoning = "AI 생성 결과")
      ∧ (∀ s, fields.lookup "reasoning" = some (.str s) → r.reasoning = s)
      ∧ (fields.lookup "suggestions" = none → r.suggestions = [])
      ∧ (∀ sl l, fields.lookup "suggestions" = some (.arr sl) →
           strListOfJson sl = some l → r.suggestions = l)
      ∧ (fields.lookup "confidence_score" = none → r.confidence_score = 0.8)
      ∧ (∀ q, fields.lookup "confidence_score" = some (.num q) →
           r.confidence_score = q) := by
  rcases h1 with h1 | ⟨s1, h1⟩ <;>
    rcases h2 with h2 | ⟨sl2, l2, h2l, h2s⟩ <;>
    rcases h3 with h3 | ⟨q3, h3⟩
  · exact ⟨⟨fields, "AI 생성 결과", [], 0.8⟩,
      generate_ok parse reply fields _ [] [] _ hp (by simp [h1]) (by simp [h2]) rfl (by simp [h3]),
      rfl, fun _ => rfl,
      fun s hs => (by rw [h1] at hs; cases hs),
      fun _ => rfl,
      fun sl l hsl hstr => (by rw [h2] at hsl; cases hsl),
      fun _ => rfl,
      fun q hq => (by rw [h3] at hq; cases hq)⟩
  · exact ⟨⟨fields, "AI 생성 결과", [], q3⟩,
      generate_ok parse reply fields _ [] [] _ hp (by simp [h1]) (by simp [h2]) rfl (by simp [h3]),
      rfl, fun _ => rfl,
      fun s hs => (by rw [h1] at hs; cases hs),
      fun _ => rfl,
      fun sl l hsl hstr => (by rw [h2] at hsl; cases hsl),
      fun hn => (by rw [h3] at hn; cases hn),
      fun q hq => (by rw [h3] at hq; injection hq with h; injection h with h2)⟩
  · exact ⟨⟨fields, "AI 생성 결과", l2, 0.8⟩,
      generate_ok parse reply fields _ sl2 l2 _ hp (by simp [h1]) (by simp [h2l]) h2s (by simp [h3]),
      rfl, fun _ => rfl,
      fun s hs => (by rw [h1] at hs; cases hs),
      fun hn => (by rw [h2l] at hn; cases hn),
      fun sl l hsl hstr => (by
        rw [h2l] at hsl; injection hsl with h; injection h with hsl2
        subst hsl2; rw [h2s] at hstr; injection hstr with hl),
      fun _ => rfl,
      fun q hq => (by rw [h3] at hq; cases hq)⟩
  · exact ⟨⟨fields, "AI 생성 결과", l2, q3⟩,
      generate_ok parse reply fields _ sl2 l2 _ hp (by simp [h1]) (by simp [h2l]) h2s (by simp [h3]),
      rfl, fun _ => rfl,
      fun s hs => (by rw [h1] at hs; cases hs),
      fun hn => (by rw [h2l] at hn; cases hn),
      fun sl l hsl hstr => (by
        rw [h2l] at hsl; injection hsl with h; injection h with hsl2
        subst hsl2; rw [h2s] at hstr; injection hstr with hl),
      fun hn => (by rw [h3] at hn; cases hn),
      fun q hq => (by rw [h3] at hq; injection hq with h; injection h with h2)⟩
  · exact ⟨⟨fields, s1, [], 0.8⟩,
      generate_ok parse reply fields s1 [] [] _ hp (by simp [h1]) (by simp [h2]) rfl (by simp [h3]),
      rfl,
      fun hn => (by rw [h1] at hn; cases hn),
      fun s hs => (by rw [h1] at hs; injection hs with h; injection h with h2),
      fun _ => rfl,
      fun sl l hsl hstr => (by rw [h2] at hsl; cases hsl),
      fun _ => rfl,
      fun q hq => (by rw [h3] at hq; cases hq)⟩
  · exact ⟨⟨fields, s1, [], q3⟩,
      generate_ok parse reply fields s1 [] [] _ hp (by simp [h1]) (by simp [h2]) rfl (by simp [h3]),
      rfl,
      fun hn => (by rw [h1] at hn; cases hn),
      fun s hs => (by rw [h1] at hs; injection hs with h; injection h with h2),
      fun _ => rfl,
      fun sl l hsl hstr => (by rw [h2] at hsl; cases hsl),
      fun hn => (by rw [h3] at hn; cases hn),
      fun q hq => (by rw [h3] at hq; injection hq with h; injection h with h2)⟩
  · exact ⟨⟨fields, s1, l2, 0.8⟩,
      generate_ok parse reply fields s1 sl2 l2 _ hp (by simp [h1]) (by simp [h2l]) h2s (by simp [h3]),
      rfl,
      fun hn => (by rw [h1] at hn; cases hn),
      fun s hs => (by rw [h1] at hs; injection hs with h; injection h with h2),
      fun hn => (by rw [h2l] at hn; cases hn),
      fun sl l hsl hstr => (by
        rw [h2l] at hsl; injection hsl with h; injection h with hsl2
        subst hsl2; rw [h2s] at hstr; injection hstr with hl),
      fun _ => rfl,
      fun q hq => (by rw [h3] at hq; cases hq)⟩
  · exact ⟨⟨fields, s1, l2, q3⟩,
      generate_ok parse reply fields s1 sl2 l2 _ hp (by simp [h1]) (by simp [h2l]) h2s (by simp [h3]),
      rfl,
      fun hn => (by rw [h1] at hn; cases hn),
      fun s hs => (by rw [h1] at hs; injection hs with h; injection h with h2),
      fun hn => (by rw [h2l] at hn; cases hn),
      fun sl l hsl hstr => (by
        rw [h2l] at hsl; injection hsl with h; injection h with hsl2
        subst hsl2; rw [h2s] at hstr; injection hstr with hl),
      fun hn => (by rw [h3] at hn; cases hn),
      fun q hq => (by rw [h3] at hq; injection hq with h; injection h with h2)⟩

def parseSampleObj : String → Except String Json :=
  fun s =>
    if s = "OBJ" then
      .ok (.obj [("reasoning", .str "r1"), ("confidence_score", .num 0.5)])
    else .error "Expecting value"

theorem loose_spec_validation_witness :
    ∃ r, (generate_api_spec_from_description true parseSampleObj "OBJ").result = .ok r
      ∧ r.api_spec = [("reasoning", Json.str "r1"), ("confidence_score", Json.num 0.5)] := by
  obtain ⟨r, hres, hapi, _⟩ :=
    loose_spec_validation parseSampleObj "OBJ"
      [("reasoning", Json.str "r1"), ("confidence_score", Json.num 0.5)]
      rfl (Or.inr ⟨"r1", rfl⟩) (Or.inl rfl) (Or.inr ⟨0.5, rfl⟩)
  exact ⟨r, hres, hapi⟩
